import Mathlib

/-!
Shallow embedding of the pairing-method scoring engine
(src/assets/js/engine.js, canonical 7-rule engine) together with the
superseded 5-rule engine found in src/scripts/test-engine.mjs after the
test script (namespace Legacy below).

Modelling conventions for JavaScript values:
* A JavaScript number is `JSNum`: NaN, +Infinity, -Infinity, or a finite
  value modelled as a rational.  `Math.floor` on a finite value is
  `Rat.floor` (rounds toward -Infinity, like JS); the infinite cases of
  each arithmetic expression are spelled out at their use sites
  (`Math.min(hi, +Infinity) = hi`, `Math.max(lo, -Infinity) = lo`, ...).
* A raw numeric attribute field is `RawNum`: `undef` (absent/undefined,
  `Number(...)` gives NaN), `nullV` (null, `Number(null) = 0`), or
  `val n` (any other value, abstracted by its `Number(...)` conversion
  `n`).  This keeps `??` (nullish coalescing) and `Number.isNaN`
  faithful without embedding JS string-to-number parsing.
* A general field value (used where the code tests `typeof v === "string"`
  or truthiness, i.e. the `name` fields) is `JSVal`; arrays and other
  objects are collapsed to `objV` there because only truthiness and
  typeof are ever asked of them.
* `wine.flavor_profile` is `Option (List JSVal)`: `some l` when the raw
  field is an array with elements `l` (`Array.isArray` true), `none`
  otherwise.
* `a || b` on strings is `jsOrStr`, on general values `jsOr`; both mirror
  JS truthiness.
-/

/-- A JavaScript number: NaN, an infinity, or a finite value (rational). -/
inductive JSNum where
  | nan
  | posInf
  | negInf
  | fin (q : ℚ)
deriving DecidableEq

/-- A raw attribute field value, abstracted by how `Number(...)` sees it:
`undef` is an absent/undefined field, `nullV` is null, and `val n` is any
non-nullish value whose `Number(...)` conversion is `n`. -/
inductive RawNum where
  | undef
  | nullV
  | val (n : JSNum)
deriving DecidableEq

/-- Number conversion of a raw field: `Number(undefined)` is NaN and
`Number(null)` is 0. -/
def toNum : RawNum → JSNum
  | .undef => .nan
  | .nullV => .fin 0
  | .val n => n

/-- Nullish test, as used by the `??` operator. -/
def nullish : RawNum → Bool
  | .undef => true
  | .nullV => true
  | .val _ => false

/-- JS nullish coalescing `a ?? b` on raw numeric fields. -/
def coalesce (a b : RawNum) : RawNum :=
  if nullish a then b else a

/-- A general JavaScript value, for fields where the code checks
truthiness or `typeof`: arrays/objects are collapsed to `objV` since only
their truthiness (always true) and typeof (never "string") matter. -/
inductive JSVal where
  | undef
  | nullV
  | boolV (b : Bool)
  | numV (n : JSNum)
  | strV (s : String)
  | objV
deriving DecidableEq

/-- JS truthiness: undefined, null, false, NaN, 0 and "" are falsy;
everything else (including infinities, objects, arrays) is truthy. -/
def truthy : JSVal → Bool
  | .undef => false
  | .nullV => false
  | .boolV b => b
  | .numV .nan => false
  | .numV .posInf => true
  | .numV .negInf => true
  | .numV (.fin q) => q != 0
  | .strV s => s != ""
  | .objV => true

/-- The `typeof v === "string"` test. -/
def JSVal.isString : JSVal → Bool
  | .strV _ => true
  | _ => false

/-- JS `a || b` on general values: `a` when truthy, else `b`. -/
def jsOr (a b : JSVal) : JSVal :=
  if truthy a then a else b

/-- JS `a || b` where `a` is known to be a string: `a` when non-empty. -/
def jsOrStr (a b : String) : String :=
  if a = "" then b else a

/-- JS `hay.includes(needle)` substring containment, on char lists:
`charsStartWith n h` is "n is an initial segment of h". -/
def charsStartWith : List Char → List Char → Bool
  | [], _ => true
  | _ :: _, [] => false
  | a :: as, b :: bs => a == b && charsStartWith as bs

/-- JS `hay.includes(needle)`: some suffix of the haystack starts with the
needle (the empty needle is contained in every string). -/
def charsContain (needle : List Char) : List Char → Bool
  | [] => needle.isEmpty
  | b :: bs => charsStartWith needle (b :: bs) || charsContain needle bs

/-- String containment as in `String.prototype.includes`. -/
def jsIncludes (hay needle : String) : Bool :=
  charsContain needle.toList hay.toList

/-- A raw food record: engine.js reads `name` plus six numeric attribute
fields; the legacy engine additionally reads `texture`/`texture_weight`. -/
structure FoodRecord where
  name : JSVal
  protein_intensity : RawNum
  fat_level : RawNum
  acidity : RawNum
  sweetness : RawNum
  spice_heat : RawNum
  umami : RawNum
  texture : RawNum
  texture_weight : RawNum
deriving DecidableEq

/-- A raw wine record as read by the engines. -/
structure WineRecord where
  name : JSVal
  body : RawNum
  tannin : RawNum
  acidity : RawNum
  alcohol : RawNum
  sweetness : RawNum
  aromatic_intensity : RawNum
  flavor_profile : Option (List JSVal)
deriving DecidableEq

/-- engine.js lines 24-28: `clamp(v, min, max)`.  `Number.isNaN` sends NaN
to the lower bound; otherwise `Math.max(lo, Math.min(hi, Math.floor(n)))`.
For +Infinity that is `Math.max(lo, hi)`; for -Infinity it is `lo`. -/
def clamp (v : JSNum) (lo hi : ℤ) : ℤ :=
  match v with
  | .nan => lo
  | .posInf => max lo hi
  | .negInf => lo
  | .fin q => max lo (min hi q.floor)

/-- Normalized food attributes (engine.js `normalizeFood`). -/
structure NormFood where
  name : String
  protein_intensity : ℤ
  fat_level : ℤ
  acidity : ℤ
  sweetness : ℤ
  spice_heat : ℤ
  umami : ℤ
deriving DecidableEq

/-- Normalized wine attributes (engine.js `normalizeWine`). -/
structure NormWine where
  name : String
  body : ℤ
  tannin : ℤ
  acidity : ℤ
  alcohol : ℤ
  sweetness : ℤ
  aromatic_intensity : ℤ
  flavor_profile : List JSVal
deriving DecidableEq

/-- engine.js lines 35-45: normalize a food record.  The defaulted clamp
arguments are `(0, 5)`. -/
def normalizeFood (food : FoodRecord) : NormFood where
  name := match food.name with | .strV s => s | _ => ""
  protein_intensity := clamp (toNum food.protein_intensity) 0 5
  fat_level := clamp (toNum food.fat_level) 0 5
  acidity := clamp (toNum food.acidity) 0 5
  sweetness := clamp (toNum food.sweetness) 0 5
  spice_heat := clamp (toNum food.spice_heat) 0 5
  umami := clamp (toNum food.umami) 0 5

/-- engine.js lines 52-65: normalize a wine record.  `alcohol` and
`aromatic_intensity` default to 3 and 2 on NaN and are otherwise floored
and clamped into [1,5] (for the infinities,
`Math.max(1, Math.min(5, ±Infinity))` is 5 and 1 respectively). -/
def normalizeWine (wine : WineRecord) : NormWine where
  name := match wine.name with | .strV s => s | _ => ""
  body := clamp (toNum wine.body) 0 5
  tannin := clamp (toNum wine.tannin) 0 5
  acidity := clamp (toNum wine.acidity) 0 5
  alcohol :=
    match toNum wine.alcohol with
    | .nan => 3
    | .posInf => 5
    | .negInf => 1
    | .fin q => max 1 (min 5 q.floor)
  sweetness := clamp (toNum wine.sweetness) 0 5
  aromatic_intensity :=
    match toNum wine.aromatic_intensity with
    | .nan => 2
    | .posInf => 5
    | .negInf => 1
    | .fin q => max 1 (min 5 q.floor)
  flavor_profile :=
    match wine.flavor_profile with
    | some l => l
    | none => []

/-- Outcome of an additive rule: a score delta and reasoning strings. -/
structure RuleDelta where
  delta : ℤ
  reasoning : List String
deriving DecidableEq

/-- Outcome of the sweetness rule: an optional cap and reasoning. -/
structure RuleCap where
  cap : Option ℤ
  reasoning : List String
deriving DecidableEq

/-- engine.js line 11. -/
def BASE_SCORE : ℤ := 50

/-- engine.js lines 78-91: Intensity Harmony, wine body vs protein
intensity; +15 when the difference is at most 1, -15 when at least 3. -/
def applyIntensityHarmony (f : NormFood) (w : NormWine) : RuleDelta :=
  let intensityDiff := |f.protein_intensity - w.body|
  if intensityDiff ≤ 1 then
    { delta := 15, reasoning := ["Wine body aligns with protein intensity."] }
  else if intensityDiff ≥ 3 then
    { delta := -15, reasoning := ["Wine body misaligned with dish intensity."] }
  else
    { delta := 0, reasoning := [] }

/-- engine.js lines 100-114: Fat Balance. -/
def applyFatBalance (f : NormFood) (w : NormWine) : RuleDelta :=
  if f.fat_level ≥ 3 ∧ (w.acidity ≥ 3 ∨ w.tannin ≥ 3) then
    { delta := 10, reasoning := ["Structure balances dish richness."] }
  else if f.fat_level ≥ 4 ∧ w.acidity ≤ 1 then
    { delta := -10, reasoning := ["Wine lacks acidity for rich texture."] }
  else
    { delta := 0, reasoning := [] }

/-- engine.js lines 123-128: Sweetness Rule, a cap of 40 when wine
sweetness is below dish sweetness. -/
def applySweetnessRule (f : NormFood) (w : NormWine) : RuleCap :=
  if w.sweetness < f.sweetness then
    { cap := some 40, reasoning := ["Wine sweetness lower than dish sweetness."] }
  else
    { cap := none, reasoning := [] }

/-- engine.js lines 136-141: Acid Gap. -/
def applyAcidGap (f : NormFood) (w : NormWine) : RuleDelta :=
  if w.acidity + 1 < f.acidity then
    { delta := -20, reasoning := ["Wine acidity too low for dish brightness."] }
  else
    { delta := 0, reasoning := [] }

/-- engine.js lines 149-169: Spice Logic; the three sub-conditions are
checked independently and their deltas and messages accumulate in order
(alcohol, tannin, sweetness). -/
def applySpiceLogic (f : NormFood) (w : NormWine) : RuleDelta :=
  let alcoholHit := f.spice_heat ≥ 3 ∧ w.alcohol ≥ 4
  let tanninHit := f.spice_heat ≥ 3 ∧ w.tannin ≥ 4
  let sweetHit := f.spice_heat ≥ 3 ∧ w.sweetness ≥ 1
  { delta :=
      (if alcoholHit then (-15 : ℤ) else 0) +
      (if tanninHit then (-10 : ℤ) else 0) +
      (if sweetHit then (8 : ℤ) else 0)
    reasoning :=
      (if alcoholHit then ["High alcohol clashes with spice heat."] else []) ++
      (if tanninHit then ["Tannins amplified by spice."] else []) ++
      (if sweetHit then ["Slight sweetness softens spice."] else []) }

/-- engine.js lines 177-182: Umami Support. -/
def applyUmamiSupport (f : NormFood) (w : NormWine) : RuleDelta :=
  if f.umami ≥ 3 ∧ w.acidity ≥ 3 then
    { delta := 5, reasoning := ["Acidity supports savory depth."] }
  else
    { delta := 0, reasoning := [] }

/-- engine.js lines 190-201: Flavor Bridge.  `(f.name || "")` lowered,
then a match when the profile is non-empty and some entry is a string
whose lowering is contained in the lowered food name.  (The leading
`w.flavor_profile &&` truthiness test in the source is constant true, the
normalized profile being an array.) -/
def applyFlavorBridge (f : NormFood) (w : NormWine) : RuleDelta :=
  let foodName := (jsOrStr f.name "").toLower
  let hasMatch :=
    decide (w.flavor_profile.length > 0) &&
    w.flavor_profile.any (fun flavor =>
      match flavor with
      | .strV s => jsIncludes foodName s.toLower
      | _ => false)
  if hasMatch then
    { delta := 5, reasoning := ["Flavor bridge between wine and dish."] }
  else
    { delta := 0, reasoning := [] }

/-- A scoring result (engine.js `scoreOnePair` return shape).  The `name`
is kept as a raw `JSVal` because the fallback `w.name || wine.name || ""`
can surface the raw, possibly non-string, `name` field. -/
structure PairingResult where
  name : JSVal
  score : ℤ
  reasoning : List String
deriving DecidableEq

/-- engine.js lines 218-242 folded into one sum: base 50 plus the six
additive rule deltas, accumulated in source order. -/
def deltaSum (f : NormFood) (w : NormWine) : ℤ :=
  (applyIntensityHarmony f w).delta + (applyFatBalance f w).delta +
  (applyAcidGap f w).delta + (applySpiceLogic f w).delta +
  (applyUmamiSupport f w).delta + (applyFlavorBridge f w).delta

/-- engine.js line 244: `score = Math.max(0, Math.min(100, score))` after
the additive rules. -/
def clampedScore (f : NormFood) (w : NormWine) : ℤ :=
  max 0 (min 100 (BASE_SCORE + deltaSum f w))

/-- engine.js lines 216-242: the reasoning pushed by the six additive
rules, in source order. -/
def ruleReasonings (f : NormFood) (w : NormWine) : List String :=
  (applyIntensityHarmony f w).reasoning ++ (applyFatBalance f w).reasoning ++
  (applyAcidGap f w).reasoning ++ (applySpiceLogic f w).reasoning ++
  (applyUmamiSupport f w).reasoning ++ (applyFlavorBridge f w).reasoning

/-- engine.js lines 213-257: score one (food, wine) pair.  The additive
deltas are summed into `clampedScore`, the sweetness reasoning is appended
last, the cap (when present) is applied after the [0,100] clamp, and the
result name is `w.name || wine.name || ""`. -/
def scoreOnePair (food : FoodRecord) (wine : WineRecord) : PairingResult :=
  let f := normalizeFood food
  let w := normalizeWine wine
  let sweetness := applySweetnessRule f w
  { name := jsOr (.strV w.name) (jsOr wine.name (.strV ""))
    score :=
      match sweetness.cap with
      | some c => min (clampedScore f w) c
      | none => clampedScore f w
    reasoning := ruleReasonings f w ++ sweetness.reasoning }

/-- The sort comparator of engine.js line 279, `(a, b) => b.score -
a.score`, as the total preorder it induces: `a` may precede `b` exactly
when the comparator is nonpositive. -/
def scoreDescLe (a b : PairingResult) : Bool :=
  decide (b.score ≤ a.score)

/-- engine.js lines 272-282: `calculatePairing`.  A falsy food argument is
`none`; a wines argument that is not an array is `none`.  JS
`Array.prototype.sort` is required by ECMAScript to be stable and, with
this consistent comparator, to produce a list sorted by it, so it is
modelled by the stable `List.mergeSort`. -/
def calculatePairing (food : Option FoodRecord) (wines : Option (List WineRecord)) :
    List PairingResult :=
  match food, wines with
  | some f, some ws =>
    if ws.length = 0 then []
    else (((ws.map (fun wine => scoreOnePair f wine)).mergeSort scoreDescLe).take 3)
  | _, _ => []

/-- engine.js lines 290-295: `scorePairing`, with the sentinel result when
either argument is absent/falsy. -/
def scorePairing (food : Option FoodRecord) (wine : Option WineRecord) : PairingResult :=
  match food, wine with
  | some f, some w => scoreOnePair f w
  | _, _ => { name := .strV "", score := 0, reasoning := [] }

namespace Legacy

/-- test-engine.mjs appended engine, line 72: base score of the
superseded 5-rule engine. -/
def BASE_SCORE : ℤ := 50

/-- Rule 1 constant: max score when wine sweetness is below food
sweetness. -/
def SWEETNESS_CAP : ℤ := 40

/-- Rule 2 constant: acid gap penalty. -/
def ACID_GAP_PENALTY : ℤ := 20

/-- Rule 3a constant: spice + high alcohol penalty. -/
def SPICE_ALCOHOL_PENALTY : ℤ := 15

/-- Rule 3b constant: spice + high tannin penalty. -/
def SPICE_TANNIN_PENALTY : ℤ := 10

/-- Rule 4 constant: fat balance bonus. -/
def FAT_BALANCE_BONUS : ℤ := 10

/-- Rule 5 constant: intensity harmony bonus. -/
def INTENSITY_HARMONY_BONUS : ℤ := 15

/-- Legacy normalized food: same fields plus `texture_weight`. -/
structure NormFood where
  protein_intensity : ℤ
  fat_level : ℤ
  acidity : ℤ
  sweetness : ℤ
  spice_heat : ℤ
  umami : ℤ
  texture_weight : ℤ
deriving DecidableEq

/-- Legacy normalized wine: no name, no flavor profile. -/
structure NormWine where
  body : ℤ
  tannin : ℤ
  acidity : ℤ
  alcohol : ℤ
  sweetness : ℤ
  aromatic_intensity : ℤ
deriving DecidableEq

/-- Legacy `normalizeFood` (its `clamp` is textually identical to the
canonical one, so the shared `clamp` is reused): reads
`food.texture ?? food.texture_weight` for the texture alias pair. -/
def normalizeFood (food : FoodRecord) : NormFood where
  protein_intensity := clamp (toNum food.protein_intensity) 0 5
  fat_level := clamp (toNum food.fat_level) 0 5
  acidity := clamp (toNum food.acidity) 0 5
  sweetness := clamp (toNum food.sweetness) 0 5
  spice_heat := clamp (toNum food.spice_heat) 0 5
  umami := clamp (toNum food.umami) 0 5
  texture_weight := clamp (toNum (coalesce food.texture food.texture_weight)) 0 5

/-- Legacy `normalizeWine`: identical numeric policy to the canonical
engine, without name/flavor_profile handling. -/
def normalizeWine (wine : WineRecord) : NormWine where
  body := clamp (toNum wine.body) 0 5
  tannin := clamp (toNum wine.tannin) 0 5
  acidity := clamp (toNum wine.acidity) 0 5
  alcohol :=
    match toNum wine.alcohol with
    | .nan => 3
    | .posInf => 5
    | .negInf => 1
    | .fin q => max 1 (min 5 q.floor)
  sweetness := clamp (toNum wine.sweetness) 0 5
  aromatic_intensity :=
    match toNum wine.aromatic_intensity with
    | .nan => 2
    | .posInf => 5
    | .negInf => 1
    | .fin q => max 1 (min 5 q.floor)

/-- Legacy `scorePairing` (test-engine.mjs appended engine, lines 99-137):
five rules, accumulated in source order, clamp to [0,100], then the
sweetness cap.  Note there is no misalignment penalty in its intensity
rule, no umami rule, no flavor bridge, and no sweetness-softens-spice
bonus. -/
def scorePairing (food : FoodRecord) (wine : WineRecord) : ℤ :=
  let f := normalizeFood food
  let w := normalizeWine wine
  let score := BASE_SCORE +
    (if w.acidity + 1 < f.acidity then -ACID_GAP_PENALTY else 0) +
    (if f.spice_heat ≥ 3 ∧ w.alcohol ≥ 4 then -SPICE_ALCOHOL_PENALTY else 0) +
    (if w.tannin ≥ 4 ∧ f.spice_heat ≥ 3 then -SPICE_TANNIN_PENALTY else 0) +
    (if f.fat_level ≥ 3 ∧ (w.acidity ≥ 3 ∨ w.tannin ≥ 3) then FAT_BALANCE_BONUS else 0) +
    (if |f.protein_intensity - w.body| ≤ 1 then INTENSITY_HARMONY_BONUS else 0)
  let clamped := max 0 (min 100 score)
  if w.sweetness < f.sweetness then min clamped SWEETNESS_CAP else clamped

end Legacy

/-! Concrete records used by witnesses and counterexamples. -/

/-- A well-formed food record: sweetness 3, mild otherwise. -/
def sampleFood : FoodRecord :=
  ⟨.strV "Dish", .val (.fin 2), .val (.fin 2), .val (.fin 2), .val (.fin 3),
   .val (.fin 0), .val (.fin 2), .undef, .undef⟩

/-- A well-formed wine record: sweetness 1, below sampleFood. -/
def sampleWine : WineRecord :=
  ⟨.strV "Wine", .val (.fin 2), .val (.fin 2), .val (.fin 2), .val (.fin 3),
   .val (.fin 1), .val (.fin 2), none⟩

/-- A bright sweet dish whose pairing with cap40Wine scores 15 before the
cap: the cap condition holds while the clamped sum is already below 40. -/
def cap40Food : FoodRecord :=
  ⟨.strV "Sorbet", .val (.fin 5), .val (.fin 0), .val (.fin 5), .val (.fin 3),
   .val (.fin 0), .val (.fin 0), .undef, .undef⟩

/-- A light dry wine misaligned with cap40Food. -/
def cap40Wine : WineRecord :=
  ⟨.strV "Dry Red", .val (.fin 0), .val (.fin 0), .val (.fin 0), .val (.fin 3),
   .val (.fin 0), .val (.fin 2), none⟩

/-- A wine whose alcohol field is absent and whose aromatic_intensity is a
NaN number: both normalize through the NaN defaults. -/
def nanWine : WineRecord :=
  ⟨.strV "Mystery", .val (.fin 2), .val (.fin 2), .val (.fin 2), .undef,
   .val (.fin 2), .val .nan, none⟩

/-- A wine whose raw name field is the (truthy, non-string) number 42. -/
def badNameWine : WineRecord :=
  ⟨.numV (.fin 42), .val (.fin 2), .val (.fin 2), .val (.fin 2), .val (.fin 3),
   .val (.fin 5), .val (.fin 2), none⟩

/-- A savory food (umami 3) on which only the canonical engine's Umami
Support rule can fire. -/
def umamiFood : FoodRecord :=
  ⟨.strV "", .val (.fin 0), .val (.fin 0), .val (.fin 0), .val (.fin 0),
   .val (.fin 0), .val (.fin 3), .undef, .undef⟩

/-- A high-acid wine matching umamiFood on body. -/
def umamiWine : WineRecord :=
  ⟨.strV "W", .val (.fin 0), .val (.fin 0), .val (.fin 3), .val (.fin 3),
   .val (.fin 0), .val (.fin 2), none⟩

/-- A food record with every field missing (its display name normalizes to
the empty string). -/
def noNameFood : FoodRecord :=
  ⟨.undef, .undef, .undef, .undef, .undef, .undef, .undef, .undef, .undef⟩

/-- A wine whose flavor_profile is the one-element array containing the
empty string. -/
def emptyFlavorWine : WineRecord :=
  ⟨.undef, .undef, .undef, .undef, .undef, .undef, .undef, some [.strV ""]⟩

/-- A normalized spicy food (spice_heat 4). -/
def spicyNF : NormFood := ⟨"Curry", 0, 0, 0, 1, 4, 0⟩

/-- A normalized hot-clash wine: alcohol 5, tannin 4, sweetness 2. -/
def spicyNW : NormWine := ⟨"Zin", 3, 4, 0, 5, 2, 3, []⟩

/-! Helper lemmas shared by several claims. -/

/-- The clamped pre-cap score always lies in [0, 100]. -/
theorem clampedScore_bounds (f : NormFood) (w : NormWine) :
    0 ≤ clampedScore f w ∧ clampedScore f w ≤ 100 := by
  unfold clampedScore
  omega

/-- The final score of a pair is the clamped sum, capped at 40 exactly
when wine sweetness is below food sweetness. -/
theorem scoreOnePair_score_cases (food : FoodRecord) (wine : WineRecord) :
    (scoreOnePair food wine).score =
      if (normalizeWine wine).sweetness < (normalizeFood food).sweetness then
        min (clampedScore (normalizeFood food) (normalizeWine wine)) 40
      else clampedScore (normalizeFood food) (normalizeWine wine) := by
  by_cases h : (normalizeWine wine).sweetness < (normalizeFood food).sweetness <;>
    simp [scoreOnePair, applySweetnessRule, h]

/-- The empty needle is contained in every character list. -/
theorem charsContain_nil (hay : List Char) : charsContain [] hay = true := by
  cases hay <;> simp [charsContain, charsStartWith, List.isEmpty]

/-- C1: for every food record and wine record, with arbitrary (possibly
malformed) field values, the score returned by scorePairing is an integer
(by its type) satisfying 0 ≤ score ≤ 100. -/
theorem scorePairing_score_bounds (food : FoodRecord) (wine : WineRecord) :
    0 ≤ (scorePairing (some food) (some wine)).score ∧
    (scorePairing (some food) (some wine)).score ≤ 100 := by
  have h := clampedScore_bounds (normalizeFood food) (normalizeWine wine)
  have hs : scorePairing (some food) (some wine) = scoreOnePair food wine := rfl
  rw [hs, scoreOnePair_score_cases]
  split <;> omega

/-- C2: whenever normalized wine sweetness is strictly below normalized
food sweetness, the final scorePairing score is at most 40, the reasoning
contains the sweetness-mismatch message, and the final score never exceeds
the [0,100]-clamped sum (the cap, applied after the clamp, can only lower
the score). -/
theorem sweetness_cap_spec (food : FoodRecord) (wine : WineRecord)
    (h : (normalizeWine wine).sweetness < (normalizeFood food).sweetness) :
    (scorePairing (some food) (some wine)).score ≤ 40 ∧
    "Wine sweetness lower than dish sweetness." ∈
      (scorePairing (some food) (some wine)).reasoning ∧
    (scorePairing (some food) (some wine)).score ≤
      clampedScore (normalizeFood food) (normalizeWine wine) := by
  have hs : scorePairing (some food) (some wine) = scoreOnePair food wine := rfl
  refine ⟨?_, ?_, ?_⟩
  · rw [hs, scoreOnePair_score_cases, if_pos h]
    exact min_le_right _ _
  · rw [hs]
    simp [scoreOnePair, applySweetnessRule, if_pos h]
  · rw [hs, scoreOnePair_score_cases, if_pos h]
    exact min_le_left _ _

/-- Witness for C2 at a concrete pair: sampleFood has sweetness 3 and
sampleWine has sweetness 1. -/
theorem sweetness_cap_spec_witness :
    ((normalizeWine sampleWine).sweetness < (normalizeFood sampleFood).sweetness) ∧
    ((scorePairing (some sampleFood) (some sampleWine)).score ≤ 40 ∧
     "Wine sweetness lower than dish sweetness." ∈
       (scorePairing (some sampleFood) (some sampleWine)).reasoning ∧
     (scorePairing (some sampleFood) (some sampleWine)).score ≤
       clampedScore (normalizeFood sampleFood) (normalizeWine sampleWine)) :=
  ⟨by decide, sweetness_cap_spec sampleFood sampleWine (by decide)⟩

/-- C4: calculatePairing returns the empty list (without raising) when the
food is absent/falsy, the wines argument is not an array, or the wines
array is empty; and scorePairing returns the zero sentinel whenever either
argument is absent. -/
theorem invalid_input_sentinels (f : Option FoodRecord) (ws : Option (List WineRecord))
    (food : FoodRecord) (wine : WineRecord) :
    calculatePairing none ws = [] ∧
    calculatePairing f none = [] ∧
    calculatePairing (some food) (some []) = [] ∧
    scorePairing none (some wine) = { name := .strV "", score := 0, reasoning := [] } ∧
    scorePairing (some food) none = { name := .strV "", score := 0, reasoning := [] } ∧
    scorePairing none none = { name := .strV "", score := 0, reasoning := [] } := by
  refine ⟨?_, ?_, rfl, rfl, rfl, rfl⟩
  · cases ws <;> rfl
  · cases f <;> rfl

/-- Any value clamped into [0, 5] lands in [0, 5]. -/
theorem clamp05_bounds (v : JSNum) : 0 ≤ clamp v 0 5 ∧ clamp v 0 5 ≤ 5 := by
  rcases v with _ | _ | _ | q <;> simp [clamp]

/-- Wine alcohol normalizes into [1, 5]. -/
theorem normalizeWine_alcohol_bounds (wine : WineRecord) :
    1 ≤ (normalizeWine wine).alcohol ∧ (normalizeWine wine).alcohol ≤ 5 := by
  simp only [normalizeWine]
  rcases h : toNum wine.alcohol with _ | _ | _ | q <;> simp [h]

/-- Wine aromatic intensity normalizes into [1, 5]. -/
theorem normalizeWine_aromatic_bounds (wine : WineRecord) :
    1 ≤ (normalizeWine wine).aromatic_intensity ∧
    (normalizeWine wine).aromatic_intensity ≤ 5 := by
  simp only [normalizeWine]
  rcases h : toNum wine.aromatic_intensity with _ | _ | _ | q <;> simp [h]

/-- C5: normalization is total and in range.  clamp maps NaN to the lower
bound and a finite value to its floor clamped into [lo, hi]; every
normalized food field lies in [0,5]; wine alcohol and aromatic_intensity
lie in [1,5] and default to 3 and 2 when the raw value is non-numeric
(converts to NaN). -/
theorem normalization_total_in_range (v : ℚ) (lo hi : ℤ)
    (food : FoodRecord) (wine : WineRecord) :
    clamp .nan lo hi = lo ∧
    clamp (.fin v) lo hi = max lo (min hi v.floor) ∧
    (0 ≤ (normalizeFood food).protein_intensity ∧ (normalizeFood food).protein_intensity ≤ 5) ∧
    (0 ≤ (normalizeFood food).fat_level ∧ (normalizeFood food).fat_level ≤ 5) ∧
    (0 ≤ (normalizeFood food).acidity ∧ (normalizeFood food).acidity ≤ 5) ∧
    (0 ≤ (normalizeFood food).sweetness ∧ (normalizeFood food).sweetness ≤ 5) ∧
    (0 ≤ (normalizeFood food).spice_heat ∧ (normalizeFood food).spice_heat ≤ 5) ∧
    (0 ≤ (normalizeFood food).umami ∧ (normalizeFood food).umami ≤ 5) ∧
    (1 ≤ (normalizeWine wine).alcohol ∧ (normalizeWine wine).alcohol ≤ 5) ∧
    (1 ≤ (normalizeWine wine).aromatic_intensity ∧
      (normalizeWine wine).aromatic_intensity ≤ 5) ∧
    (toNum wine.alcohol = .nan → (normalizeWine wine).alcohol = 3) ∧
    (toNum wine.aromatic_intensity = .nan → (normalizeWine wine).aromatic_intensity = 2) := by
  refine ⟨rfl, rfl, clamp05_bounds _, clamp05_bounds _, clamp05_bounds _, clamp05_bounds _,
    clamp05_bounds _, clamp05_bounds _, normalizeWine_alcohol_bounds wine,
    normalizeWine_aromatic_bounds wine, ?_, ?_⟩
  · intro h
    simp [normalizeWine, h]
  · intro h
    simp [normalizeWine, h]

/-- Witness for C5 at a concrete wine whose alcohol field is absent and
whose aromatic_intensity field holds NaN. -/
theorem normalization_total_in_range_witness :
    (toNum nanWine.alcohol = .nan ∧ (normalizeWine nanWine).alcohol = 3) ∧
    (toNum nanWine.aromatic_intensity = .nan ∧
      (normalizeWine nanWine).aromatic_intensity = 2) :=
  ⟨⟨by decide,
    (normalization_total_in_range 0 0 5 sampleFood nanWine).2.2.2.2.2.2.2.2.2.2.1 (by decide)⟩,
   ⟨by decide,
    (normalization_total_in_range 0 0 5 sampleFood nanWine).2.2.2.2.2.2.2.2.2.2.2 (by decide)⟩⟩

/-- The sort comparator is transitive. -/
theorem scoreDescLe_trans (a b c : PairingResult) :
    scoreDescLe a b → scoreDescLe b c → scoreDescLe a c := by
  simp only [scoreDescLe, decide_eq_true_eq]
  omega

/-- The sort comparator is total. -/
theorem scoreDescLe_total (a b : PairingResult) :
    scoreDescLe a b || scoreDescLe b a := by
  simp only [scoreDescLe, Bool.or_eq_true, decide_eq_true_eq]
  omega

/-- C3: calculatePairing returns at most 3 results, pairwise descending in
score; the output is the 3-element prefix of the stable descending sort of
the per-wine results, and that sort is stable: any descending-sorted
subsequence of the input results (in particular any pair of equal-score
results in input order) remains a subsequence of the sorted list. -/
theorem calculatePairing_top3_sorted_stable (food : FoodRecord) (wines : List WineRecord) :
    (calculatePairing (some food) (some wines)).length ≤ 3 ∧
    (calculatePairing (some food) (some wines)).Pairwise
      (fun a b => b.score ≤ a.score) ∧
    calculatePairing (some food) (some wines) =
      ((wines.map (fun wine => scoreOnePair food wine)).mergeSort scoreDescLe).take 3 ∧
    (∀ l : List PairingResult, l.Pairwise (fun a b => b.score ≤ a.score) →
      l.Sublist (wines.map (fun wine => scoreOnePair food wine)) →
      l.Sublist
        ((wines.map (fun wine => scoreOnePair food wine)).mergeSort scoreDescLe)) := by
  have hsorted :=
    List.sorted_mergeSort scoreDescLe_trans scoreDescLe_total
      (wines.map (fun wine => scoreOnePair food wine))
  have heq : calculatePairing (some food) (some wines) =
      ((wines.map (fun wine => scoreOnePair food wine)).mergeSort scoreDescLe).take 3 := by
    by_cases h : wines.length = 0
    · rw [List.length_eq_zero] at h
      subst h
      simp [calculatePairing, List.mergeSort_nil]
    · simp [calculatePairing, h]
  refine ⟨?_, ?_, heq, ?_⟩
  · rw [heq]
    exact List.length_take_le _ _
  · rw [heq]
    have hp : ((wines.map (fun wine => scoreOnePair food wine)).mergeSort
        scoreDescLe).Pairwise (fun a b => b.score ≤ a.score) := by
      refine hsorted.imp ?_
      intro a b hab
      simpa [scoreDescLe] using hab
    exact List.Pairwise.sublist (List.take_sublist _ _) hp
  · intro l hl hsub
    refine List.sublist_mergeSort scoreDescLe_trans scoreDescLe_total ?_ hsub
    refine hl.imp ?_
    intro a b hab
    simpa [scoreDescLe] using hab

/-- Witness for C3: the stability clause applied to a concrete singleton
input. -/
theorem calculatePairing_top3_sorted_stable_witness :
    [scoreOnePair sampleFood sampleWine].Sublist
      (([sampleWine].map (fun wine => scoreOnePair sampleFood wine)).mergeSort
        scoreDescLe) :=
  (calculatePairing_top3_sorted_stable sampleFood [sampleWine]).2.2.2
    [scoreOnePair sampleFood sampleWine] (by simp) (by simp)

/-- C6: the reasoning of a pair is exactly the concatenation of the seven
rules' reasoning lists in the fixed order Intensity Harmony, Fat Balance,
Acid Gap, Spice Logic, Umami Support, Flavor Bridge, Sweetness; whenever
normalized wine sweetness is below normalized food sweetness the
sweetness message is the last entry (regardless of the pre-cap score). -/
theorem reasoning_concat_order (food : FoodRecord) (wine : WineRecord) :
    (scorePairing (some food) (some wine)).reasoning =
      (applyIntensityHarmony (normalizeFood food) (normalizeWine wine)).reasoning ++
      (applyFatBalance (normalizeFood food) (normalizeWine wine)).reasoning ++
      (applyAcidGap (normalizeFood food) (normalizeWine wine)).reasoning ++
      (applySpiceLogic (normalizeFood food) (normalizeWine wine)).reasoning ++
      (applyUmamiSupport (normalizeFood food) (normalizeWine wine)).reasoning ++
      (applyFlavorBridge (normalizeFood food) (normalizeWine wine)).reasoning ++
      (applySweetnessRule (normalizeFood food) (normalizeWine wine)).reasoning ∧
    ((normalizeWine wine).sweetness < (normalizeFood food).sweetness →
      (scorePairing (some food) (some wine)).reasoning.getLast? =
        some "Wine sweetness lower than dish sweetness.") := by
  have hs : scorePairing (some food) (some wine) = scoreOnePair food wine := rfl
  constructor
  · rw [hs]
    simp [scoreOnePair, ruleReasonings, List.append_assoc]
  · intro h
    rw [hs]
    simp [scoreOnePair, applySweetnessRule, if_pos h, List.getLast?_concat]

/-- Witness for C6 at a concrete pair whose clamped pre-cap score (15)
is already below the cap of 40. -/
theorem reasoning_concat_order_witness :
    ((normalizeWine cap40Wine).sweetness < (normalizeFood cap40Food).sweetness ∧
     clampedScore (normalizeFood cap40Food) (normalizeWine cap40Wine) = 15) ∧
    (scorePairing (some cap40Food) (some cap40Wine)).reasoning.getLast? =
      some "Wine sweetness lower than dish sweetness." :=
  ⟨by decide, (reasoning_concat_order cap40Food cap40Wine).2 (by decide)⟩

/-- C7: the Spice Logic sub-conditions are independent and cumulative: a
spicy dish (spice_heat at least 3) against a wine with alcohol at least 4,
tannin at least 4 and sweetness at least 1 yields the net delta
-15 - 10 + 8 = -17 together with exactly the three spice messages in the
order alcohol, tannin, sweetness. -/
theorem spice_logic_cumulative (f : NormFood) (w : NormWine)
    (hs : f.spice_heat ≥ 3) (ha : w.alcohol ≥ 4) (ht : w.tannin ≥ 4)
    (hw : w.sweetness ≥ 1) :
    applySpiceLogic f w =
      { delta := -17
        reasoning := ["High alcohol clashes with spice heat.",
                      "Tannins amplified by spice.",
                      "Slight sweetness softens spice."] } := by
  simp [applySpiceLogic, hs, ha, ht, hw]

/-- Witness for C7 at a concrete normalized pair (spice_heat 4 against
alcohol 5, tannin 4, sweetness 2). -/
theorem spice_logic_cumulative_witness :
    applySpiceLogic spicyNF spicyNW =
      { delta := -17
        reasoning := ["High alcohol clashes with spice heat.",
                      "Tannins amplified by spice.",
                      "Slight sweetness softens spice."] } :=
  spice_logic_cumulative spicyNF spicyNW (by decide) (by decide) (by decide) (by decide)

/-- C9: the canonical 7-rule engine and the superseded 5-rule engine are
not extensionally equivalent: on a savory dish paired with a high-acid
wine the Umami Support rule (absent from the 5-rule engine) separates the
scores (70 against 65). -/
theorem engines_not_equivalent :
    ∃ (food : FoodRecord) (wine : WineRecord),
      (scorePairing (some food) (some wine)).score ≠ Legacy.scorePairing food wine :=
  ⟨umamiFood, umamiWine, by decide⟩

/-- C10: when a wine's flavor profile contains the empty string, the
Flavor Bridge rule fires (+5 with its message) against every food record,
including foods with an empty or missing display name, because the empty
string is a substring of every string. -/
theorem empty_flavor_entry_always_bridges (food : FoodRecord) (wine : WineRecord)
    (h : JSVal.strV "" ∈ (normalizeWine wine).flavor_profile) :
    applyFlavorBridge (normalizeFood food) (normalizeWine wine) =
      { delta := 5, reasoning := ["Flavor bridge between wine and dish."] } := by
  have hne : 0 < (normalizeWine wine).flavor_profile.length :=
    List.length_pos.mpr (List.ne_nil_of_mem h)
  have hincl : ∀ hay : String, jsIncludes hay ("".toLower) = true := by
    have hnil : ("".toLower).toList = [] := by
      rw [String.toLower, String.map_eq]
      decide
    intro hay
    rw [jsIncludes, hnil]
    exact charsContain_nil _
  have hany : (normalizeWine wine).flavor_profile.any (fun flavor =>
      match flavor with
      | .strV s =>
        jsIncludes ((jsOrStr (normalizeFood food).name "").toLower) s.toLower
      | _ => false) = true := by
    refine List.any_eq_true.mpr ⟨.strV "", h, ?_⟩
    exact hincl _
  simp [applyFlavorBridge, hne, hany]

/-- Witness for C10: a wine whose flavor profile is the one-element array
containing the empty string, against a food with no display name. -/
theorem empty_flavor_entry_always_bridges_witness :
    JSVal.strV "" ∈ (normalizeWine emptyFlavorWine).flavor_profile ∧
    applyFlavorBridge (normalizeFood noNameFood) (normalizeWine emptyFlavorWine) =
      { delta := 5, reasoning := ["Flavor bridge between wine and dish."] } :=
  ⟨by decide, empty_flavor_entry_always_bridges noNameFood emptyFlavorWine (by decide)⟩

/-- C8 counterexample: when the raw wine name field is the (truthy,
non-string) number 42, the fallback `w.name || wine.name || ""` surfaces
it unchanged, so the result name is not a string. -/
theorem result_name_not_string_cex :
    (scorePairing (some sampleFood) (some badNameWine)).name.isString = false := by
  decide

/-- C8 amended: the result name is the normalized display name when that
is non-empty, otherwise the raw wine name field when that is truthy,
otherwise the empty string; consequently it is a string exactly when the
raw name field is a string or is falsy (a truthy non-string raw name is
returned unchanged). -/
theorem result_name_chain (food : FoodRecord) (wine : WineRecord) :
    (scorePairing (some food) (some wine)).name =
      (if (normalizeWine wine).name = "" then
        (if truthy wine.name then wine.name else .strV "")
      else .strV (normalizeWine wine).name) ∧
    (scorePairing (some food) (some wine)).name.isString =
      (wine.name.isString || !truthy wine.name) := by
  have hs : scorePairing (some food) (some wine) = scoreOnePair food wine := rfl
  rw [hs]
  rcases hw : wine.name with _ | _ | b | n | s | _
  · simp [scoreOnePair, normalizeWine, hw, jsOr, truthy, JSVal.isString]
  · simp [scoreOnePair, normalizeWine, hw, jsOr, truthy, JSVal.isString]
  · cases b <;> simp [scoreOnePair, normalizeWine, hw, jsOr, truthy, JSVal.isString]
  · rcases n with _ | _ | _ | q
    · simp [scoreOnePair, normalizeWine, hw, jsOr, truthy, JSVal.isString]
    · simp [scoreOnePair, normalizeWine, hw, jsOr, truthy, JSVal.isString]
    · simp [scoreOnePair, normalizeWine, hw, jsOr, truthy, JSVal.isString]
    · by_cases hq : q = 0 <;>
        simp [scoreOnePair, normalizeWine, hw, jsOr, truthy, JSVal.isString, hq]
  · by_cases hemp : s = "" <;>
      simp [scoreOnePair, normalizeWine, hw, jsOr, truthy, JSVal.isString, hemp]
  · simp [scoreOnePair, normalizeWine, hw, jsOr, truthy, JSVal.isString]
